import Mathlib

/-!
Verification of the VERDICT rules engine (`backend/rules_engine.py`).

The development shallowly embeds the rules engine: Python values occurring in
evaluation contexts become the inductive `Value` (numbers are modelled as `ℚ`,
exact rationals, in place of IEEE floats; the arithmetic the engine performs on
prices is exactly representable there), Python dicts become association lists,
and the condition strings that the engine hands to `eval` with empty
`__builtins__` are represented by their parsed expression trees (`Expr`), a
fragment of the Python expression grammar covering the operators the rule
language uses plus attribute access and single-argument calls, which the
grammar also admits.  Fallible Python code (an expression raising, namespace
construction raising) is modelled with `Except String`.
-/

namespace Verdict

/-- A runtime value, as the engine sees it: `none` is Python `None`; `dict` is a
plain Python dict (an association list of string keys, first binding wins, as in
a dict with unique keys); `dotdict` is the engine's `DotDict` wrapper around a
stored value; `method` is a bound numeric method such as `(1).__add__`
(mapping equality between wrapper objects, which Python decides by identity, is
modelled as never-equal; conditions compare scalars). -/
inductive Value where
  | none
  | bool (b : Bool)
  | num (q : ℚ)
  | str (s : String)
  | dict (entries : List (String × Value))
  | dotdict (data : Value)
  | method (recv : ℚ) (meth : String)

/-- Python truthiness (`bool(v)`): `None` and `False` are falsy, numbers by
comparison with zero, strings and dicts by emptiness; a `DotDict` instance
defines neither `__bool__` nor `__len__`, so it is always truthy. -/
def truthy : Value → Bool
  | Value.none => false
  | Value.bool b => b
  | Value.num q => !(q = 0 : Bool)
  | Value.str s => !s.isEmpty
  | Value.dict entries => !entries.isEmpty
  | Value.dotdict _ => true
  | Value.method _ _ => true

/-- Numeric view of a value: Python treats `bool` as the integers 0/1 in
arithmetic and comparisons. -/
def toNum : Value → Option ℚ
  | Value.num q => some q
  | Value.bool b => some (if b then 1 else 0)
  | _ => Option.none

mutual

/-- Python `==` on the values the engine handles: `None` equals only `None`,
booleans coerce to numbers, strings and numbers compare by value, dicts
structurally; distinct wrapper objects compare unequal (identity). -/
def pyEq : Value → Value → Bool
  | Value.none, Value.none => true
  | Value.bool a, Value.bool b => a == b
  | Value.bool a, Value.num q => (if a then (1 : ℚ) else 0) == q
  | Value.num q, Value.bool b => q == (if b then (1 : ℚ) else 0)
  | Value.num a, Value.num b => a == b
  | Value.str a, Value.str b => a == b
  | Value.dict a, Value.dict b => pyEqList a b
  | _, _ => false

/-- Structural equality of dict entry lists (entrywise). -/
def pyEqList : List (String × Value) → List (String × Value) → Bool
  | [], [] => true
  | (k₁, v₁) :: t₁, (k₂, v₂) :: t₂ => k₁ == k₂ && pyEq v₁ v₂ && pyEqList t₁ t₂
  | _, _ => false

end

/-- `DotDict.__getattr__` (rules_engine.py lines 269-273): `self._data.get(key)`
returns `None` for a missing key; a dict value is re-wrapped in a `DotDict`;
if the wrapped data is not a dict, `.get` itself raises `AttributeError`. -/
def dotGet (data : Value) (key : String) : Except String Value :=
  match data with
  | Value.dict entries =>
    Except.ok (match List.lookup key entries with
      | some (Value.dict d) => Value.dotdict (Value.dict d)
      | some v => v
      | Option.none => Value.none)
  | _ => Except.error "AttributeError: object has no attribute get"

/-- Attribute access as Python resolves it on the values above: `DotDict`
intercepts it; a number exposes its `__add__` bound method (the dunder
machinery that survives an empty `__builtins__`); everything else the
conditions can produce has no such attribute and raises. -/
def getAttr (v : Value) (field : String) : Except String Value :=
  match v with
  | Value.dotdict data => dotGet data field
  | Value.num q =>
    if field = "__add__" then Except.ok (Value.method q "__add__")
    else Except.error "AttributeError: no such attribute"
  | _ => Except.error "AttributeError: no such attribute"

/-- Binary operators of the condition language (Python semantics). -/
inductive BinOp where
  | add | sub | mul | div | lt | le | gt | ge | eq | ne

/-- The expression grammar Python `eval` accepts on condition strings,
restricted to the constructs the rule language exercises: literals, names,
arithmetic, boolean combinators, comparisons — plus attribute access and
single-argument calls, which `eval` also accepts on any condition text. -/
inductive Expr where
  | lit (v : Value)
  | name (s : String)
  | attrGet (e : Expr) (field : String)
  | unaryNot (e : Expr)
  | unaryNeg (e : Expr)
  | bin (op : BinOp) (a b : Expr)
  | andE (a b : Expr)
  | orE (a b : Expr)
  | call (f : Expr) (arg : Expr)

/-- Whether an expression contains a function/method call. -/
def hasCall : Expr → Bool
  | Expr.lit _ => false
  | Expr.name _ => false
  | Expr.attrGet e _ => hasCall e
  | Expr.unaryNot e => hasCall e
  | Expr.unaryNeg e => hasCall e
  | Expr.bin _ a b => hasCall a || hasCall b
  | Expr.andE a b => hasCall a || hasCall b
  | Expr.orE a b => hasCall a || hasCall b
  | Expr.call _ _ => true

/-- Arithmetic on numeric views; a non-numeric operand raises `TypeError`. -/
def numBin (f : ℚ → ℚ → ℚ) (a b : Value) : Except String Value :=
  match toNum a, toNum b with
  | some x, some y => Except.ok (Value.num (f x y))
  | _, _ => Except.error "TypeError: unsupported operand type"

/-- Order comparison: strings compare with strings, numbers (and booleans)
with numbers; any other combination raises `TypeError` as in Python 3. -/
def cmpBin (f : ℚ → ℚ → Bool) (g : String → String → Bool) (a b : Value) :
    Except String Value :=
  match a, b with
  | Value.str x, Value.str y => Except.ok (Value.bool (g x y))
  | a, b =>
    match toNum a, toNum b with
    | some x, some y => Except.ok (Value.bool (f x y))
    | _, _ => Except.error "TypeError: comparison not supported"

/-- Apply a binary operator (Python semantics; `/` raises on a zero divisor,
`+` concatenates strings). -/
def applyBin : BinOp → Value → Value → Except String Value
  | BinOp.eq, a, b => Except.ok (Value.bool (pyEq a b))
  | BinOp.ne, a, b => Except.ok (Value.bool (!pyEq a b))
  | BinOp.add, Value.str x, Value.str y => Except.ok (Value.str (x ++ y))
  | BinOp.add, a, b => numBin (· + ·) a b
  | BinOp.sub, a, b => numBin (· - ·) a b
  | BinOp.mul, a, b => numBin (· * ·) a b
  | BinOp.div, a, b =>
    match toNum a, toNum b with
    | some x, some y =>
      if y = 0 then Except.error "ZeroDivisionError: division by zero"
      else Except.ok (Value.num (x / y))
    | _, _ => Except.error "TypeError: unsupported operand type"
  | BinOp.lt, a, b => cmpBin (fun x y => decide (x < y)) (fun x y => decide (x < y)) a b
  | BinOp.le, a, b => cmpBin (fun x y => decide (x ≤ y)) (fun x y => decide (x < y) || x == y) a b
  | BinOp.gt, a, b => cmpBin (fun x y => decide (y < x)) (fun x y => decide (y < x)) a b
  | BinOp.ge, a, b => cmpBin (fun x y => decide (y ≤ x)) (fun x y => decide (y < x) || x == y) a b

/-- Evaluate an expression the way `eval(condition, \x7b"__builtins__": \x7b\x7d\x7d, namespace)`
does: a name resolves through the locals (the supplied namespace) first, then
through the globals dict — which binds exactly one name, `__builtins__`,
to the empty dict — and only a name absent from both raises `NameError`;
`and`/`or` short-circuit and return an operand; a call is dispatched through
the bound method obtained by attribute access. -/
def evalExpr (ns : String → Option Value) : Expr → Except String Value
  | Expr.lit v => Except.ok v
  | Expr.name s =>
    match ns s with
    | some v => Except.ok v
    | Option.none =>
      if s = "__builtins__" then Except.ok (Value.dict [])
      else Except.error ("NameError: name " ++ s ++ " is not defined")
  | Expr.attrGet e field =>
    match evalExpr ns e with
    | Except.error msg => Except.error msg
    | Except.ok v => getAttr v field
  | Expr.unaryNot e =>
    match evalExpr ns e with
    | Except.error msg => Except.error msg
    | Except.ok v => Except.ok (Value.bool (!truthy v))
  | Expr.unaryNeg e =>
    match evalExpr ns e with
    | Except.error msg => Except.error msg
    | Except.ok v =>
      match toNum v with
      | some q => Except.ok (Value.num (-q))
      | Option.none => Except.error "TypeError: bad operand type for unary minus"
  | Expr.bin op a b =>
    match evalExpr ns a with
    | Except.error msg => Except.error msg
    | Except.ok va =>
      match evalExpr ns b with
      | Except.error msg => Except.error msg
      | Except.ok vb => applyBin op va vb
  | Expr.andE a b =>
    match evalExpr ns a with
    | Except.error msg => Except.error msg
    | Except.ok va => if truthy va then evalExpr ns b else Except.ok va
  | Expr.orE a b =>
    match evalExpr ns a with
    | Except.error msg => Except.error msg
    | Except.ok va => if truthy va then Except.ok va else evalExpr ns b
  | Expr.call f arg =>
    match evalExpr ns f with
    | Except.error msg => Except.error msg
    | Except.ok vf =>
      match evalExpr ns arg with
      | Except.error msg => Except.error msg
      | Except.ok va =>
        match vf with
        | Value.method recv _ =>
          match toNum va with
          | some q => Except.ok (Value.num (recv + q))
          | Option.none => Except.error "TypeError: unsupported operand type"
        | _ => Except.error "TypeError: object is not callable"

/-- `context.get("market_data", \x7b\x7d).get("price", 0)` (rules_engine.py line
295): if the `market_data` value is not a dict, the second `.get` raises
`AttributeError`; an absent `market_data` or absent `price` defaults to `0`. -/
def declaredPrice (ctx : List (String × Value)) : Except String Value :=
  match List.lookup "market_data" ctx with
  | some (Value.dict md) => Except.ok ((List.lookup "price" md).getD (Value.num 0))
  | some _ => Except.error "AttributeError: object has no attribute get"
  | Option.none => Except.ok (Value.num 0)

/-- Lines 297-301: `if declared_price > 0` (a Python `>` against `0`, raising
`TypeError` on a non-numeric declared price) selects between
`abs(ftso_price - declared_price) / declared_price * 100` — which touches the
oracle price only in this branch — and the sentinel `100.0`. -/
def diffCompute (ftso declared : Value) : Except String ℚ :=
  match toNum declared with
  | Option.none => Except.error "TypeError: comparison not supported"
  | some d =>
    if 0 < d then
      match toNum ftso with
      | some f => Except.ok (|f - d| / d * 100)
      | Option.none => Except.error "TypeError: unsupported operand type"
    else Except.ok 100

/-- Lines 292-301: the synthetic `ftso_price_diff_pct` binding is computed only
when both `ftso_price` and `market_data` are present in the context. -/
def computeDiff (ctx : List (String × Value)) : Except String (Option Value) :=
  if (List.lookup "ftso_price" ctx).isSome && (List.lookup "market_data" ctx).isSome then
    match declaredPrice ctx with
    | Except.error e => Except.error e
    | Except.ok d =>
      match diffCompute ((List.lookup "ftso_price" ctx).getD (Value.num 0)) d with
      | Except.error e => Except.error e
      | Except.ok q => Except.ok (some (Value.num q))
  else Except.ok Option.none

/-- The namespace dict built by `_build_namespace`, as a lookup function.  The
branches appear in the reverse of the order the Python code writes the keys,
because a later dict write shadows an earlier one: the boolean/null literal
bindings win over everything, then the computed `ftso_price_diff_pct`, then the
`DotDict`-wrapped special keys, and finally the direct context entries —
except those whose key starts with an underscore, which are never injected. -/
def nsFun (ctx : List (String × Value)) (dv : Option Value) : String → Option Value :=
  fun key =>
    if key = "true" ∨ key = "True" then some (Value.bool true)
    else if key = "false" ∨ key = "False" then some (Value.bool false)
    else if key = "null" ∨ key = "None" then some Value.none
    else if key = "ftso_price_diff_pct" ∧ dv.isSome then dv
    else if (key = "market_data" ∨ key = "sentiment_data" ∨ key = "leverage_suggestion")
        ∧ (List.lookup key ctx).isSome then
      some (Value.dotdict ((List.lookup key ctx).getD Value.none))
    else if key.data.head? = some (Char.ofNat 95) then Option.none
    else List.lookup key ctx

/-- `_build_namespace(context)` (lines 254-311).  The only fallible step is the
`ftso_price_diff_pct` computation. -/
def buildNamespace (ctx : List (String × Value)) :
    Except String (String → Option Value) :=
  match computeDiff ctx with
  | Except.error e => Except.error e
  | Except.ok dv => Except.ok (nsFun ctx dv)

/-- A condition string, abstracted over its text: a text whose stripped,
lowercased form is exactly `true` (resp. `false`) is the literal shortcut of
lines 239-242; any other text is represented by its parsed expression. -/
inductive Cond where
  | litTrue
  | litFalse
  | expr (e : Expr)

/-- One verification rule (class `Rule`, lines 15-25), with the loader's
defaults already applied to missing fields. -/
structure Rule where
  name : String
  type : String
  condition : Cond
  action : String
  severity : String
  message : String
  description : String

/-- `_evaluate_condition(condition, context)` (lines 221-252): the namespace is
built first (outside the inner `try`, so its exceptions propagate to the
caller); the literal shortcuts return immediately; any other condition is
evaluated by the restricted `eval`, whose own exceptions are caught and
converted to `False` — the fail-closed branch of lines 249-252. -/
def evaluateCondition (cond : Cond) (ctx : List (String × Value)) :
    Except String Bool :=
  match buildNamespace ctx with
  | Except.error e => Except.error e
  | Except.ok ns =>
    Except.ok (match cond with
      | Cond.litTrue => true
      | Cond.litFalse => false
      | Cond.expr e =>
        match evalExpr ns e with
        | Except.ok v => truthy v
        | Except.error _ => false)

/-- Result of evaluating one rule (class `RuleEvaluationResult`): the `error`
field is populated only when `_evaluate_condition` itself raised — which, per
the above, a failing condition expression never does. -/
structure EvalResult where
  rule : Rule
  passed : Bool
  error : Option String

/-- `_evaluate_rule(rule, context)` (lines 197-219). -/
def evaluateRule (rule : Rule) (ctx : List (String × Value)) : EvalResult :=
  match evaluateCondition rule.condition ctx with
  | Except.ok b => ⟨rule, b, Option.none⟩
  | Except.error e => ⟨rule, false, some e⟩

/-- The per-rule result dictionary (`RuleEvaluationResult.to_dict`, lines
48-58): `message` is populated only on failure. -/
structure RuleResult where
  rule_name : String
  type : String
  passed : Bool
  action : String
  severity : String
  message : Option String
  error : Option String

/-- `to_dict` of a rule evaluation result. -/
def toDictR (res : EvalResult) : RuleResult :=
  { rule_name := res.rule.name
    type := res.rule.type
    passed := res.passed
    action := res.rule.action
    severity := res.rule.severity
    message := if res.passed then Option.none else some res.rule.message
    error := res.error }

/-- The loop accumulator of `evaluate_rules` (lines 139-174). -/
structure Acc where
  passed_count : Nat
  failed_count : Nat
  critical_failures : Nat
  should_block : Bool
  results : List RuleResult

/-- One iteration of the `for rule in self.rules` loop (lines 146-174):
`should_block` is raised, and `critical_failures` bumped for a critical/high
severity, only when a failed rule carries the `reject` action. -/
def evalStep (ctx : List (String × Value)) (acc : Acc) (rule : Rule) : Acc :=
  if (evaluateRule rule ctx).passed then
    { acc with passed_count := acc.passed_count + 1
               results := acc.results ++ [toDictR (evaluateRule rule ctx)] }
  else
    { passed_count := acc.passed_count
      failed_count := acc.failed_count + 1
      critical_failures :=
        if rule.action == "reject" && (rule.severity == "critical" || rule.severity == "high")
        then acc.critical_failures + 1 else acc.critical_failures
      should_block := acc.should_block || rule.action == "reject"
      results := acc.results ++ [toDictR (evaluateRule rule ctx)] }

/-- The aggregate verdict dictionary returned by `evaluate_rules`.  The
`no_rules` short-circuit return carries no `timestamp` key; modelled as
`Option.none` there. -/
structure AggVerdict where
  rules_evaluated : Nat
  rules_passed : Nat
  rules_failed : Nat
  critical_failures : Nat
  overall_status : String
  should_block : Bool
  results : List RuleResult
  timestamp : Option Value

/-- The overall-status precedence chain of lines 176-184. -/
def overallStatus (crit failed : Nat) (block : Bool) : String :=
  if crit > 0 then "critical_failure"
  else if block then "blocked"
  else if failed > 0 then "warnings"
  else "passed"

/-- `evaluate_rules(context)` (lines 116-195): the empty rule set
short-circuits to the `no_rules` verdict; otherwise every rule is evaluated in
declaration order and the counts are accumulated. -/
def evaluateRules (rules : List Rule) (ctx : List (String × Value)) : AggVerdict :=
  if rules.isEmpty then
    { rules_evaluated := 0
      rules_passed := 0
      rules_failed := 0
      critical_failures := 0
      overall_status := "no_rules"
      should_block := false
      results := []
      timestamp := Option.none }
  else
    let acc := rules.foldl (evalStep ctx) ⟨0, 0, 0, false, []⟩
    { rules_evaluated := rules.length
      rules_passed := acc.passed_count
      rules_failed := acc.failed_count
      critical_failures := acc.critical_failures
      overall_status := overallStatus acc.critical_failures acc.failed_count acc.should_block
      should_block := acc.should_block
      results := acc.results
      timestamp := some ((List.lookup "timestamp" ctx).getD (Value.str "")) }

/-- One entry of the YAML `rules` list: a mapping parses into a `Rule` (the
`.get` defaults of lines 19-25 are already applied); any non-mapping entry
makes `Rule(rule_dict)` raise `AttributeError` on the first `.get`, and the
`except` of lines 105-107 skips it. -/
inductive RuleSrc where
  | dict (r : Rule)
  | nonDict

/-- `Rule(rule_dict)` as the load loop sees it: `some` for a mapping entry,
`none` (skipped) for anything else. -/
def parseRuleSrc : RuleSrc → Option Rule
  | RuleSrc.dict r => some r
  | RuleSrc.nonDict => Option.none

/-- The parsed YAML source `load_rules` reads, classified by the shape of its
`rules` entry: a missing file, an empty/None document, a document without a
`rules` key, `rules: null`, a numeric `rules` value, a string `rules` value,
or a proper list of entries. -/
inductive Config where
  | fileMissing
  | empty
  | noRulesKey
  | rulesNull
  | rulesInt (n : Int)
  | rulesStr (s : String)
  | rulesList (l : List RuleSrc)

/-- `load_rules` (lines 78-114) acting on the current rule list: the guards of
lines 88-97 return `False` before `self.rules` is touched; once control reaches
line 100, `self.rules = []` clears the engine, and only then is the `rules`
value iterated — a non-iterable value (null, a number) raises `TypeError`,
which the outer `except` of lines 112-114 turns into `False` with the rule
list left empty; a string iterates over its characters, every one of which is
skipped by the per-entry `except`, so the load reports `True` with an empty
rule list. -/
def load_rules (prev : List Rule) (cfg : Config) : Bool × List Rule :=
  match cfg with
  | Config.fileMissing => (false, prev)
  | Config.empty => (false, prev)
  | Config.noRulesKey => (false, prev)
  | Config.rulesNull => (false, [])
  | Config.rulesInt _ => (false, [])
  | Config.rulesStr _ => (true, [])
  | Config.rulesList l => (true, l.filterMap parseRuleSrc)

/-- `reload_rules` (lines 336-344) just calls `load_rules`. -/
def reload_rules (prev : List Rule) (cfg : Config) : Bool × List Rule :=
  load_rules prev cfg

/-- A rule passes in a given context. -/
def rulePassed (ctx : List (String × Value)) (r : Rule) : Bool :=
  (evaluateRule r ctx).passed

/-- A rule is a blocking failure: it failed and its action is `reject`. -/
def ruleBlocks (ctx : List (String × Value)) (r : Rule) : Bool :=
  !rulePassed ctx r && r.action == "reject"

/-- A rule is a critical failure: it failed, its action is `reject`, and its
severity is `critical` or `high`. -/
def ruleCritical (ctx : List (String × Value)) (r : Rule) : Bool :=
  !rulePassed ctx r &&
    (r.action == "reject" && (r.severity == "critical" || r.severity == "high"))

/-- The evaluation loop adds one to the pass count for each passing rule. -/
theorem foldl_passed (ctx : List (String × Value)) (rules : List Rule) (a : Acc) :
    (rules.foldl (evalStep ctx) a).passed_count =
      a.passed_count + rules.countP (rulePassed ctx) := by
  induction rules generalizing a with
  | nil => simp
  | cons r t ih =>
    rw [List.foldl_cons, ih, List.countP_cons]
    simp only [rulePassed, evalStep]
    by_cases hp : (evaluateRule r ctx).passed = true
    · rw [if_pos hp]; simp only [hp, if_pos rfl]; simp; omega
    · rw [if_neg hp]; simp only [Bool.not_eq_true] at hp; simp [hp]

/-- The evaluation loop adds one to the fail count for each failing rule. -/
theorem foldl_failed (ctx : List (String × Value)) (rules : List Rule) (a : Acc) :
    (rules.foldl (evalStep ctx) a).failed_count =
      a.failed_count + rules.countP (fun r => !rulePassed ctx r) := by
  induction rules generalizing a with
  | nil => simp
  | cons r t ih =>
    rw [List.foldl_cons, ih, List.countP_cons]
    simp only [rulePassed, evalStep]
    by_cases hp : (evaluateRule r ctx).passed = true
    · rw [if_pos hp]; simp [hp]
    · rw [if_neg hp]; simp only [Bool.not_eq_true] at hp; simp [hp]; omega

/-- The evaluation loop counts the critical failures. -/
theorem foldl_crit (ctx : List (String × Value)) (rules : List Rule) (a : Acc) :
    (rules.foldl (evalStep ctx) a).critical_failures =
      a.critical_failures + rules.countP (ruleCritical ctx) := by
  induction rules generalizing a with
  | nil => simp
  | cons r t ih =>
    rw [List.foldl_cons, ih, List.countP_cons]
    simp only [ruleCritical, rulePassed, evalStep]
    by_cases hp : (evaluateRule r ctx).passed = true
    · rw [if_pos hp]; simp [hp]
    · rw [if_neg hp]; simp only [Bool.not_eq_true] at hp
      by_cases hc :
          (r.action == "reject" && (r.severity == "critical" || r.severity == "high")) = true
      · simp [hp, hc]; omega
      · simp only [Bool.not_eq_true] at hc; simp [hp, hc]

/-- The evaluation loop raises the blocking flag exactly on a failed
reject-action rule. -/
theorem foldl_block (ctx : List (String × Value)) (rules : List Rule) (a : Acc) :
    (rules.foldl (evalStep ctx) a).should_block =
      (a.should_block || rules.any (ruleBlocks ctx)) := by
  induction rules generalizing a with
  | nil => simp
  | cons r t ih =>
    rw [List.foldl_cons, ih, List.any_cons]
    simp only [ruleBlocks, rulePassed, evalStep]
    by_cases hp : (evaluateRule r ctx).passed = true
    · rw [if_pos hp]; simp [hp]
    · rw [if_neg hp]; simp only [Bool.not_eq_true] at hp
      simp [hp, Bool.or_assoc]

/-- The evaluation loop appends one result per rule, in declaration order. -/
theorem foldl_results (ctx : List (String × Value)) (rules : List Rule) (a : Acc) :
    (rules.foldl (evalStep ctx) a).results =
      a.results ++ rules.map (fun r => toDictR (evaluateRule r ctx)) := by
  induction rules generalizing a with
  | nil => simp
  | cons r t ih =>
    rw [List.foldl_cons, ih, List.map_cons]
    simp only [evalStep]
    by_cases hp : (evaluateRule r ctx).passed = true
    · rw [if_pos hp]; simp
    · rw [if_neg hp]; simp

/-- Partitioning a list by a boolean predicate counts every element once. -/
theorem countP_add_countP_not {α : Type} (p : α → Bool) (l : List α) :
    l.countP p + l.countP (fun a => !p a) = l.length := by
  induction l with
  | nil => rfl
  | cons x t ih =>
    rw [List.countP_cons, List.countP_cons, List.length_cons]
    cases h : p x <;> simp [h] <;> omega

/-- `List.any` is invariant under permutation. -/
theorem perm_any_eq {α : Type} {l₁ l₂ : List α} (h : l₁.Perm l₂) (p : α → Bool) :
    l₁.any p = l₂.any p := by
  cases ha : l₁.any p <;> cases hb : l₂.any p <;> try rfl
  · rw [List.any_eq_false] at ha
    rw [List.any_eq_true] at hb
    obtain ⟨x, hx, hpx⟩ := hb
    exact absurd hpx (ha x (h.mem_iff.2 hx))
  · rw [List.any_eq_true] at ha
    rw [List.any_eq_false] at hb
    obtain ⟨x, hx, hpx⟩ := ha
    exact absurd hpx (hb x (h.mem_iff.1 hx))

/-- A sample rule whose condition is the literal `true` and whose action is
`warn`. -/
def ruleTrueWarn : Rule :=
  ⟨"always_pass", "generic", Cond.litTrue, "warn", "medium", "failed", ""⟩

/-- A sample rule whose condition is the literal `false`, with action `reject`
and severity `critical`. -/
def ruleFalseReject : Rule :=
  ⟨"always_block", "generic", Cond.litFalse, "reject", "critical", "blocked", ""⟩

/-- Claim C8: with an empty rule set, `evaluate_rules` returns, for every
context, the `no_rules` verdict: zero counts, `should_block = false`, empty
results. -/
theorem claim_C8_no_rules (ctx : List (String × Value)) :
    evaluateRules [] ctx =
      { rules_evaluated := 0
        rules_passed := 0
        rules_failed := 0
        critical_failures := 0
        overall_status := "no_rules"
        should_block := false
        results := []
        timestamp := Option.none } := rfl

/-- Claim C10: for a non-empty rule set, every rule is counted exactly once:
`rules_passed + rules_failed = rules_evaluated = |rules| = |results|`. -/
theorem claim_C10_counts (rules : List Rule) (ctx : List (String × Value))
    (h : rules ≠ []) :
    (evaluateRules rules ctx).rules_passed + (evaluateRules rules ctx).rules_failed =
        (evaluateRules rules ctx).rules_evaluated ∧
    (evaluateRules rules ctx).rules_evaluated = rules.length ∧
    (evaluateRules rules ctx).results.length = rules.length := by
  have hne : rules.isEmpty = false := List.isEmpty_eq_false.mpr h
  unfold evaluateRules
  rw [hne]
  simp only [Bool.false_eq_true, if_false]
  refine ⟨?_, by trivial, ?_⟩
  · rw [foldl_passed, foldl_failed]
    simpa using countP_add_countP_not (rulePassed ctx) rules
  · rw [foldl_results]
    simp

/-- Witness for C10 at a concrete one-rule set and empty context. -/
theorem claim_C10_counts_witness :
    (evaluateRules [ruleTrueWarn] []).rules_passed +
        (evaluateRules [ruleTrueWarn] []).rules_failed =
        (evaluateRules [ruleTrueWarn] []).rules_evaluated ∧
    (evaluateRules [ruleTrueWarn] []).rules_evaluated = [ruleTrueWarn].length ∧
    (evaluateRules [ruleTrueWarn] []).results.length = [ruleTrueWarn].length :=
  claim_C10_counts [ruleTrueWarn] [] (by simp)

/-- Claim C5: for a non-empty rule set, `should_block` holds iff some failed
rule has action `reject`; `critical_failures` counts the failed rules with
action `reject` and severity `critical` or `high`; and `overall_status`
follows the first-match precedence `critical_failure`, `blocked`, `warnings`,
`passed`. -/
theorem claim_C5_status (rules : List Rule) (ctx : List (String × Value))
    (h : rules ≠ []) :
    (evaluateRules rules ctx).should_block = rules.any (ruleBlocks ctx) ∧
    (evaluateRules rules ctx).critical_failures = rules.countP (ruleCritical ctx) ∧
    (evaluateRules rules ctx).overall_status =
      (if 0 < (evaluateRules rules ctx).critical_failures then "critical_failure"
       else if (evaluateRules rules ctx).should_block then "blocked"
       else if 0 < (evaluateRules rules ctx).rules_failed then "warnings"
       else "passed") := by
  have hne : rules.isEmpty = false := List.isEmpty_eq_false.mpr h
  unfold evaluateRules
  rw [hne]
  simp only [Bool.false_eq_true, if_false]
  refine ⟨?_, ?_, ?_⟩
  · rw [foldl_block]; simp
  · rw [foldl_crit]; simp
  · unfold overallStatus
    rfl

/-- Witness for C5 at a concrete failing reject rule and empty context. -/
theorem claim_C5_status_witness :
    (evaluateRules [ruleFalseReject] []).should_block =
        [ruleFalseReject].any (ruleBlocks []) ∧
    (evaluateRules [ruleFalseReject] []).critical_failures =
        [ruleFalseReject].countP (ruleCritical []) ∧
    (evaluateRules [ruleFalseReject] []).overall_status =
      (if 0 < (evaluateRules [ruleFalseReject] []).critical_failures then "critical_failure"
       else if (evaluateRules [ruleFalseReject] []).should_block then "blocked"
       else if 0 < (evaluateRules [ruleFalseReject] []).rules_failed then "warnings"
       else "passed") :=
  claim_C5_status [ruleFalseReject] [] (by simp)

/-- Claim C7: permuting the rule set leaves `overall_status`, `should_block`,
`rules_passed`, `rules_failed` and `critical_failures` unchanged. -/
theorem claim_C7_order_independence (rules₁ rules₂ : List Rule)
    (ctx : List (String × Value)) (h : rules₁.Perm rules₂) :
    (evaluateRules rules₁ ctx).overall_status = (evaluateRules rules₂ ctx).overall_status ∧
    (evaluateRules rules₁ ctx).should_block = (evaluateRules rules₂ ctx).should_block ∧
    (evaluateRules rules₁ ctx).rules_passed = (evaluateRules rules₂ ctx).rules_passed ∧
    (evaluateRules rules₁ ctx).rules_failed = (evaluateRules rules₂ ctx).rules_failed ∧
    (evaluateRules rules₁ ctx).critical_failures =
      (evaluateRules rules₂ ctx).critical_failures := by
  have hie : rules₁.isEmpty = rules₂.isEmpty := h.isEmpty_eq
  by_cases he : rules₁.isEmpty = true
  · have h1 : rules₁ = [] := List.isEmpty_iff.mp he
    have h2 : rules₂ = [] := List.isEmpty_iff.mp (by rw [← hie]; exact he)
    subst h1
    subst h2
    exact ⟨rfl, rfl, rfl, rfl, rfl⟩
  · have he₂ : rules₂.isEmpty ≠ true := by rw [← hie]; exact he
    have hb₁ : rules₁.isEmpty = false := by simpa using he
    have hb₂ : rules₂.isEmpty = false := by simpa using he₂
    unfold evaluateRules
    rw [hb₁, hb₂]
    simp only [Bool.false_eq_true, if_false]
    have hpass := h.countP_eq (rulePassed ctx)
    have hfail := h.countP_eq (fun r => !rulePassed ctx r)
    have hcrit := h.countP_eq (ruleCritical ctx)
    have hblock := perm_any_eq h (ruleBlocks ctx)
    refine ⟨?_, ?_, ?_, ?_, ?_⟩ <;>
      simp only [foldl_passed, foldl_failed, foldl_crit, foldl_block, overallStatus,
        Nat.zero_add, Bool.false_or, hpass, hfail, hcrit, hblock]

/-- Witness for C7: swapping a two-rule set preserves the aggregate verdict. -/
theorem claim_C7_order_independence_witness :
    (evaluateRules [ruleTrueWarn, ruleFalseReject] []).overall_status =
        (evaluateRules [ruleFalseReject, ruleTrueWarn] []).overall_status ∧
    (evaluateRules [ruleTrueWarn, ruleFalseReject] []).should_block =
        (evaluateRules [ruleFalseReject, ruleTrueWarn] []).should_block ∧
    (evaluateRules [ruleTrueWarn, ruleFalseReject] []).rules_passed =
        (evaluateRules [ruleFalseReject, ruleTrueWarn] []).rules_passed ∧
    (evaluateRules [ruleTrueWarn, ruleFalseReject] []).rules_failed =
        (evaluateRules [ruleFalseReject, ruleTrueWarn] []).rules_failed ∧
    (evaluateRules [ruleTrueWarn, ruleFalseReject] []).critical_failures =
        (evaluateRules [ruleFalseReject, ruleTrueWarn] []).critical_failures :=
  claim_C7_order_independence [ruleTrueWarn, ruleFalseReject]
    [ruleFalseReject, ruleTrueWarn] [] (List.Perm.swap ruleFalseReject ruleTrueWarn [])

/-- The computed deviation binding wins the namespace lookup for
`ftso_price_diff_pct`. -/
theorem nsFun_diff (ctx : List (String × Value)) (v : Value) :
    nsFun ctx (some v) "ftso_price_diff_pct" = some v := rfl

/-- Closed form of the deviation computation when the context carries a
numeric oracle price and a `market_data` dict whose `price` entry is numeric
or absent (`d = 0` encodes the `.get` default for an absent price). -/
theorem computeDiff_spec (ctx : List (String × Value)) (p d : ℚ)
    (md : List (String × Value))
    (hp : List.lookup "ftso_price" ctx = some (Value.num p))
    (hmd : List.lookup "market_data" ctx = some (Value.dict md))
    (hprice : List.lookup "price" md = some (Value.num d) ∨
      (List.lookup "price" md = Option.none ∧ d = 0)) :
    computeDiff ctx =
      Except.ok (some (Value.num (if 0 < d then |p - d| / d * 100 else 100))) := by
  unfold computeDiff declaredPrice
  rw [hp, hmd]
  simp only [Option.isSome_some, Bool.and_self, if_true, Option.getD_some]
  rcases hprice with hpr | ⟨hpr, hd⟩
  · rw [hpr]
    simp only [Option.getD_some]
    unfold diffCompute
    simp only [toNum]
    by_cases hd0 : (0 : ℚ) < d
    · rw [if_pos hd0, if_pos hd0]
    · rw [if_neg hd0, if_neg hd0]
  · rw [hpr]
    subst hd
    simp only [Option.getD_none]
    unfold diffCompute
    simp only [toNum]
    rw [if_neg (lt_irrefl (0 : ℚ)), if_neg (lt_irrefl (0 : ℚ))]

/-- The namespace binds `ftso_price_diff_pct` to the computed deviation. -/
theorem buildNamespace_diff (ctx : List (String × Value)) (p d : ℚ)
    (md : List (String × Value))
    (hp : List.lookup "ftso_price" ctx = some (Value.num p))
    (hmd : List.lookup "market_data" ctx = some (Value.dict md))
    (hprice : List.lookup "price" md = some (Value.num d) ∨
      (List.lookup "price" md = Option.none ∧ d = 0)) :
    ∃ ns, buildNamespace ctx = Except.ok ns ∧
      ns "ftso_price_diff_pct" =
        some (Value.num (if 0 < d then |p - d| / d * 100 else 100)) := by
  refine ⟨nsFun ctx (some (Value.num (if 0 < d then |p - d| / d * 100 else 100))), ?_, nsFun_diff ctx _⟩
  unfold buildNamespace
  rw [computeDiff_spec ctx p d md hp hmd hprice]

/-- Claim C6: with a numeric oracle price and a `market_data` mapping whose
declared price is numeric or absent, the namespace binds
`ftso_price_diff_pct` to `abs(oracle - declared) / declared * 100` when the
declared price is strictly positive, and to `100.0` when it is non-positive
or absent. -/
theorem claim_C6_deviation (ctx : List (String × Value)) (p d : ℚ)
    (md : List (String × Value))
    (hp : List.lookup "ftso_price" ctx = some (Value.num p))
    (hmd : List.lookup "market_data" ctx = some (Value.dict md))
    (hprice : List.lookup "price" md = some (Value.num d) ∨
      (List.lookup "price" md = Option.none ∧ d = 0)) :
    ∃ ns, buildNamespace ctx = Except.ok ns ∧
      ns "ftso_price_diff_pct" =
        some (Value.num (if 0 < d then |p - d| / d * 100 else 100)) :=
  buildNamespace_diff ctx p d md hp hmd hprice

/-- Witness for C6: oracle price 100 against declared price 105, and against
an explicit declared price of 0. -/
theorem claim_C6_deviation_witness :
    (∃ ns, buildNamespace
        [("ftso_price", Value.num 100), ("market_data", Value.dict [("price", Value.num 105)])] =
        Except.ok ns ∧
      ns "ftso_price_diff_pct" =
        some (Value.num (if 0 < (105 : ℚ) then |(100 : ℚ) - 105| / 105 * 100 else 100))) ∧
    (∃ ns, buildNamespace
        [("ftso_price", Value.num 100), ("market_data", Value.dict [("price", Value.num 0)])] =
        Except.ok ns ∧
      ns "ftso_price_diff_pct" =
        some (Value.num (if 0 < (0 : ℚ) then |(100 : ℚ) - 0| / 0 * 100 else 100))) :=
  ⟨claim_C6_deviation _ 100 105 [("price", Value.num 105)] rfl rfl (Or.inl rfl),
   claim_C6_deviation _ 100 0 [("price", Value.num 0)] rfl rfl (Or.inl rfl)⟩

/-- Counterexample to claim C3: on the spec's own example context the
namespace binds `ftso_price_diff_pct` to `100/51 ≈ 1.9608` — the divisor is
the declared price 102 — which is not `2.0` within any floating tolerance:
it differs from 2 by more than `1/100`. -/
theorem claim_C3_counterexample :
    (∃ ns, buildNamespace
        [("ftso_price", Value.num 100), ("market_data", Value.dict [("price", Value.num 102)])] =
        Except.ok ns ∧
      ns "ftso_price_diff_pct" = some (Value.num (100 / 51))) ∧
    ¬((100 : ℚ) / 51 = 2) ∧ (1 / 100 : ℚ) < |(100 : ℚ) / 51 - 2| := by
  obtain ⟨ns, h1, h2⟩ :=
    buildNamespace_diff [("ftso_price", Value.num 100), ("market_data", Value.dict [("price", Value.num 102)])] 100 102 [("price", Value.num 102)] rfl rfl (Or.inl rfl)
  have hv : (if 0 < (102 : ℚ) then |(100 : ℚ) - 102| / 102 * 100 else 100) = 100 / 51 := by
    rw [if_pos (by norm_num), show ((100 : ℚ) - 102) = -2 by norm_num, abs_neg,
      abs_of_nonneg (by norm_num)]
    norm_num
  refine ⟨⟨ns, h1, by rw [h2, hv]⟩, by norm_num, ?_⟩
  rw [show ((100 : ℚ) / 51 - 2) = -(2 / 51) by norm_num, abs_neg,
    abs_of_nonneg (by norm_num)]
  norm_num

/-- Claim C3 as amended: on the context with oracle price 100 and declared
price 102 the binding is `100/51` (the code divides by the declared price);
with declared price 0 the binding is the sentinel `100`. -/
theorem claim_C3_amended :
    (∃ ns, buildNamespace
        [("ftso_price", Value.num 100), ("market_data", Value.dict [("price", Value.num 102)])] =
        Except.ok ns ∧
      ns "ftso_price_diff_pct" = some (Value.num (100 / 51))) ∧
    (∃ ns, buildNamespace
        [("ftso_price", Value.num 100), ("market_data", Value.dict [("price", Value.num 0)])] =
        Except.ok ns ∧
      ns "ftso_price_diff_pct" = some (Value.num 100)) := by
  constructor
  · obtain ⟨ns, h1, h2⟩ :=
      buildNamespace_diff [("ftso_price", Value.num 100), ("market_data", Value.dict [("price", Value.num 102)])] 100 102 [("price", Value.num 102)] rfl rfl (Or.inl rfl)
    have hv : (if 0 < (102 : ℚ) then |(100 : ℚ) - 102| / 102 * 100 else 100) = 100 / 51 := by
      rw [if_pos (by norm_num), show ((100 : ℚ) - 102) = -2 by norm_num, abs_neg,
        abs_of_nonneg (by norm_num)]
      norm_num
    exact ⟨ns, h1, by rw [h2, hv]⟩
  · obtain ⟨ns, h1, h2⟩ :=
      buildNamespace_diff [("ftso_price", Value.num 100), ("market_data", Value.dict [("price", Value.num 0)])] 100 0 [("price", Value.num 0)] rfl rfl (Or.inl rfl)
    exact ⟨ns, h1, by rw [h2, if_neg (lt_irrefl (0 : ℚ))]⟩

/-- The condition expression `1/0 > 1` of spec property P2. -/
def divZeroExpr : Expr :=
  Expr.bin BinOp.gt
    (Expr.bin BinOp.div (Expr.lit (Value.num 1)) (Expr.lit (Value.num 0)))
    (Expr.lit (Value.num 1))

/-- A rule carrying the raising condition `1/0 > 1`. -/
def ruleDivZero : Rule :=
  ⟨"price_check", "price", Cond.expr divZeroExpr, "warn", "medium", "bad price", ""⟩

/-- When a rule's condition expression raises during `eval`, the exception is
swallowed inside `_evaluate_condition` (lines 249-252), so `_evaluate_rule`
sees an ordinary `False` and builds a result with `passed = false` and
`error = None`. -/
theorem evaluateRule_expr_error (rule : Rule) (ctx : List (String × Value))
    (e : Expr) (ns : String → Option Value) (msg : String)
    (hc : rule.condition = Cond.expr e)
    (hns : buildNamespace ctx = Except.ok ns)
    (he : evalExpr ns e = Except.error msg) :
    evaluateRule rule ctx = ⟨rule, false, Option.none⟩ := by
  unfold evaluateRule evaluateCondition
  rw [hc, hns]
  simp only [he]

/-- Counterexample to claim C1: for the rule whose condition is `1/0 > 1`
(which raises `ZeroDivisionError` inside `eval`), the per-rule result has
`passed = false` and the rule is counted in `rules_failed`, but its `error`
field is `None` — not a non-null error string. -/
theorem claim_C1_counterexample :
    evalExpr (nsFun [] Option.none) divZeroExpr =
      Except.error "ZeroDivisionError: division by zero" ∧
    (evaluateRules [ruleDivZero] []).rules_failed = 1 ∧
    (evaluateRules [ruleDivZero] []).results =
      [⟨"price_check", "price", false, "warn", "medium", some "bad price",
        Option.none⟩] := by
  refine ⟨rfl, ?_, ?_⟩
  · have hr : evaluateRule ruleDivZero [] = ⟨ruleDivZero, false, Option.none⟩ :=
      evaluateRule_expr_error ruleDivZero [] divZeroExpr (nsFun [] Option.none)
        "ZeroDivisionError: division by zero" rfl rfl rfl
    unfold evaluateRules
    rw [show ([ruleDivZero] : List Rule).isEmpty = false from rfl]
    simp only [Bool.false_eq_true, if_false]
    rw [foldl_failed]
    simp [rulePassed, hr]
  · have hr : evaluateRule ruleDivZero [] = ⟨ruleDivZero, false, Option.none⟩ :=
      evaluateRule_expr_error ruleDivZero [] divZeroExpr (nsFun [] Option.none)
        "ZeroDivisionError: division by zero" rfl rfl rfl
    unfold evaluateRules
    rw [show ([ruleDivZero] : List Rule).isEmpty = false from rfl]
    simp only [Bool.false_eq_true, if_false]
    rw [foldl_results]
    simp only [List.map_cons, List.map_nil, List.nil_append, hr]
    simp [toDictR, ruleDivZero]

/-- Claim C1 as amended: a raising condition expression yields a per-rule
result with `passed = false` and `error = None` (the condition evaluator
catches the exception internally and fails closed, so no error string reaches
the result), and the rule is counted in `rules_failed`. -/
theorem claim_C1_amended (rule : Rule) (ctx : List (String × Value)) (e : Expr)
    (ns : String → Option Value) (msg : String)
    (hc : rule.condition = Cond.expr e)
    (hns : buildNamespace ctx = Except.ok ns)
    (he : evalExpr ns e = Except.error msg) :
    evaluateRule rule ctx = ⟨rule, false, Option.none⟩ ∧
    (evaluateRules [rule] ctx).rules_failed = 1 ∧
    (evaluateRules [rule] ctx).results =
      [⟨rule.name, rule.type, false, rule.action, rule.severity,
        some rule.message, Option.none⟩] := by
  have hr : evaluateRule rule ctx = ⟨rule, false, Option.none⟩ :=
    evaluateRule_expr_error rule ctx e ns msg hc hns he
  refine ⟨hr, ?_, ?_⟩
  · unfold evaluateRules
    rw [show ([rule] : List Rule).isEmpty = false from rfl]
    simp only [Bool.false_eq_true, if_false]
    rw [foldl_failed]
    simp [rulePassed, hr]
  · unfold evaluateRules
    rw [show ([rule] : List Rule).isEmpty = false from rfl]
    simp only [Bool.false_eq_true, if_false]
    rw [foldl_results]
    simp only [List.map_cons, List.map_nil, List.nil_append, hr]
    simp [toDictR]

/-- Witness for the amended C1 at the concrete rule with condition `1/0 > 1`
and the empty context. -/
theorem claim_C1_amended_witness :
    evaluateRule ruleDivZero [] = ⟨ruleDivZero, false, Option.none⟩ ∧
    (evaluateRules [ruleDivZero] []).rules_failed = 1 ∧
    (evaluateRules [ruleDivZero] []).results =
      [⟨ruleDivZero.name, ruleDivZero.type, false, ruleDivZero.action,
        ruleDivZero.severity, some ruleDivZero.message, Option.none⟩] :=
  claim_C1_amended ruleDivZero [] divZeroExpr (nsFun [] Option.none)
    "ZeroDivisionError: division by zero" rfl rfl rfl

/-- Counterexample to claim C2: the condition `not foo` with `foo` unbound
does not evaluate to `true` — the name lookup raises `NameError` (the
namespace is a plain dict, and the globals dict binds no name other than
`__builtins__`), and the evaluator fails closed to `false`. -/
theorem claim_C2_counterexample :
    evalExpr (nsFun [] Option.none) (Expr.name "foo") =
      Except.error "NameError: name foo is not defined" ∧
    evaluateCondition (Cond.expr (Expr.unaryNot (Expr.name "foo"))) [] =
      Except.ok false :=
  ⟨rfl, rfl⟩

/-- Claim C2 as amended: a top-level identifier with no binding in the
namespace — other than `__builtins__`, the one name bound by the globals
dict handed to `eval` — raises a name-resolution failure, which the
evaluator catches, making the condition false (so the negation of an unbound
identifier evaluates to false, not true); the name `__builtins__` itself
resolves through the globals to the empty dict, which is falsy, so
`not __builtins__` evaluates to true; only attribute lookups through the
`DotDict` wrapper resolve missing keys to `None`; and `None` compares unequal
to every non-`None` value and is falsy. -/
theorem claim_C2_amended (ctx : List (String × Value))
    (ns : String → Option Value) (s key : String)
    (entries : List (String × Value)) (v : Value)
    (hns : buildNamespace ctx = Except.ok ns) (hs : ns s = Option.none)
    (hb : ¬s = "__builtins__") (hbns : ns "__builtins__" = Option.none)
    (hk : List.lookup key entries = Option.none) (hv : v ≠ Value.none) :
    evalExpr ns (Expr.name s) =
      Except.error ("NameError: name " ++ s ++ " is not defined") ∧
    evaluateCondition (Cond.expr (Expr.unaryNot (Expr.name s))) ctx =
      Except.ok false ∧
    evalExpr ns (Expr.name "__builtins__") = Except.ok (Value.dict []) ∧
    evaluateCondition (Cond.expr (Expr.unaryNot (Expr.name "__builtins__"))) ctx =
      Except.ok true ∧
    dotGet (Value.dict entries) key = Except.ok Value.none ∧
    pyEq Value.none v = false ∧
    truthy Value.none = false := by
  have h1 : evalExpr ns (Expr.name s) =
      Except.error ("NameError: name " ++ s ++ " is not defined") := by
    simp [evalExpr, hs, hb]
  have h3 : evalExpr ns (Expr.name "__builtins__") = Except.ok (Value.dict []) := by
    simp [evalExpr, hbns]
  refine ⟨h1, ?_, h3, ?_, ?_, ?_, rfl⟩
  · unfold evaluateCondition
    rw [hns]
    simp [evalExpr, hs, hb]
  · unfold evaluateCondition
    rw [hns]
    simp [evalExpr, hbns, truthy]
  · simp [dotGet, hk]
  · cases v <;> first | exact absurd rfl hv | rfl

/-- Witness for the amended C2: the namespace of the empty context, the
unbound name `foo`, an empty nested dict with key `bar`, and the non-null
value `1`. -/
theorem claim_C2_amended_witness :
    evalExpr (nsFun [] Option.none) (Expr.name "foo") =
      Except.error ("NameError: name " ++ "foo" ++ " is not defined") ∧
    evaluateCondition (Cond.expr (Expr.unaryNot (Expr.name "foo"))) [] =
      Except.ok false ∧
    evalExpr (nsFun [] Option.none) (Expr.name "__builtins__") =
      Except.ok (Value.dict []) ∧
    evaluateCondition (Cond.expr (Expr.unaryNot (Expr.name "__builtins__"))) [] =
      Except.ok true ∧
    dotGet (Value.dict []) "bar" = Except.ok Value.none ∧
    pyEq Value.none (Value.num 1) = false ∧
    truthy Value.none = false :=
  claim_C2_amended [] (nsFun [] Option.none) "foo" "bar" [] (Value.num 1)
    rfl rfl (by decide) rfl rfl (fun h => Value.noConfusion h)

/-- Counterexample to claim C4: reloading from a source whose `rules` entry is
`null` (present but not a list) reports failure, yet replaces the previously
loaded non-empty rule set with the empty list — the engine does not retain
the previous rules. -/
theorem claim_C4_counterexample :
    load_rules [ruleTrueWarn] Config.rulesNull = (false, []) ∧
    ((false, ([] : List Rule)) ≠ (false, [ruleTrueWarn])) :=
  ⟨rfl, by simp⟩

/-- Claim C4 as amended: a load whose source is missing, empty, or lacks the
`rules` key fails and retains the previous rule set; but when a `rules` entry
is present and is not a list, the engine clears the previous rules before the
failure is detected — a non-iterable `rules` value leaves the engine with an
empty rule list and a failed load, and a string `rules` value leaves an empty
rule list with the load reporting success. -/
theorem claim_C4_amended (prev : List Rule) :
    load_rules prev Config.fileMissing = (false, prev) ∧
    load_rules prev Config.empty = (false, prev) ∧
    load_rules prev Config.noRulesKey = (false, prev) ∧
    load_rules prev Config.rulesNull = (false, []) ∧
    (∀ n : Int, load_rules prev (Config.rulesInt n) = (false, [])) ∧
    (∀ s : String, load_rules prev (Config.rulesStr s) = (true, [])) ∧
    reload_rules prev Config.noRulesKey = (false, prev) :=
  ⟨rfl, rfl, rfl, rfl, fun _ => rfl, fun _ => rfl, rfl⟩

/-- The condition sub-expression `(1).__add__(2)`: a method call that the
restricted `eval` executes happily. -/
def escapeExpr : Expr :=
  Expr.call (Expr.attrGet (Expr.lit (Value.num 1)) "__add__")
    (Expr.lit (Value.num 2))

/-- Counterexample to claim C9: a condition containing a function call
evaluates successfully under the restricted `eval` — the expression language
is not limited to literals, namespace bindings, operators and parentheses,
and calling functions is possible. -/
theorem claim_C9_counterexample :
    hasCall escapeExpr = true ∧
    evalExpr (nsFun [] Option.none) escapeExpr = Except.ok (Value.num 3) ∧
    truthy (Value.num 3) = true := by
  refine ⟨rfl, ?_, by norm_num [truthy]⟩
  norm_num [escapeExpr, evalExpr, getAttr, toNum]

/-- Claim C9 as amended: the empty `__builtins__` globals make builtin names
unresolvable — `open` and `__import__` raise `NameError` — but the expression
language accepted by `eval` still includes attribute access and function
calls, which evaluate successfully; the evaluator does not restrict
conditions to literals, namespace bindings, operators and parentheses. -/
theorem claim_C9_amended :
    evalExpr (nsFun [] Option.none) (Expr.name "open") =
      Except.error "NameError: name open is not defined" ∧
    evalExpr (nsFun [] Option.none) (Expr.name "__import__") =
      Except.error "NameError: name __import__ is not defined" ∧
    hasCall escapeExpr = true ∧
    evalExpr (nsFun [] Option.none)
      (Expr.attrGet (Expr.lit (Value.num 1)) "__add__") =
      Except.ok (Value.method 1 "__add__") := by
  refine ⟨rfl, rfl, rfl, rfl⟩

end Verdict
